import Mathlib

/-!
Formal model of the OpenThread Border Router REST extension subsystem:
the action (task) queue, the devices/diagnostics collections, the
commissioner allow list and the network diagnostics collector.

Every definition is a shallow embedding of the corresponding C/C++
function from the repository (file and function names are kept where
Lean allows it).  External effects (wall-clock time, the OpenThread
stack API, random UUIDs) are passed in explicitly as parameters or
environment records.
-/

namespace Otbr

/-- `rest_actions_task_status_t` from rest_task_handler.hpp. -/
inductive TaskStatus
  | pending
  | active
  | completed
  | stopped
  | failed
deriving DecidableEq, Repr

/-- `rest_actions_task_result_t` from rest_task_handler.hpp. -/
inductive TaskResult
  | success
  | resultPending
  | retry
  | failure
  | stopped
  | noChangeRequired
deriving DecidableEq, Repr

/-- The subset of `otbrError` codes used by the network diagnostics handler. -/
inductive OtbrError
  | ok
  | errno
  | invalidState
  | aborted
  | restErr
  | parse
  | invalidArgs
deriving DecidableEq, Repr

/-- `RequestState` of `NetworkDiagHandler` (network_diag_handler.hpp). -/
inductive RequestState
  | kIdle
  | kWaiting
  | kPending
  | kDone
deriving DecidableEq, Repr

/-- A node of the action queue (`task_node_t` from rest_task_handler.hpp).
The cJSON payload is not modelled; `relationshipType`/`relationshipId`
model the `relationship_t` member (empty string = not set, mirroring the
zero-initialised `char` arrays). -/
structure TaskNode where
  status : TaskStatus
  created : Int
  timeout : Int
  lastEvaluated : Int
  deleteTask : Bool
  relationshipType : String
  relationshipId : String
deriving DecidableEq, Repr

/-- `TASK_QUEUE_MAX` from rest_task_queue.hpp. -/
def TASK_QUEUE_MAX : Nat := 100

/-- `can_remove_task` (rest_task_handler.cpp): task is completed, stopped or failed. -/
def canRemoveTask (t : TaskNode) : Bool :=
  t.status == .completed || t.status == .stopped || t.status == .failed

/-- The scan loop of `remove_oldest_non_running_task` (rest_task_queue.cpp):
`timestamp` starts at the current time and is lowered to each strictly
older removable task found; the index of the last such task is kept. -/
def findOldestScan : List TaskNode → Int → Option Nat → Nat → Option Nat
  | [], _, best, _ => best
  | t :: rest, ts, best, idx =>
      if canRemoveTask t && decide (t.created < ts) then
        findOldestScan rest t.created (some idx) (idx + 1)
      else
        findOldestScan rest ts best (idx + 1)

/-- Replace the element at index `n` by `f` of it. -/
def listModify (f : α → α) : Nat → List α → List α
  | _, [] => []
  | 0, x :: xs => f x :: xs
  | n + 1, x :: xs => x :: listModify f n xs

/-- `remove_oldest_non_running_task` (rest_task_queue.cpp): find the oldest
removable task strictly older than `now`; if found, mark it stopped and
flag it for deletion (the node is unlinked later by the queue handler). -/
def removeOldestNonRunningTask (now : Int) (q : List TaskNode) : Option (List TaskNode) :=
  match findOldestScan q now none 0 with
  | none => none
  | some i => some (listModify (fun t => { t with status := .stopped, deleteTask := true }) i q)

/-- `queue_task` (rest_task_queue.cpp): when the queue is at
`TASK_QUEUE_MAX`, try to evict the oldest non-running task; on failure the
submission is rejected and the queue is left unchanged (`none`).
Otherwise the new node is appended at the tail. -/
def queueTask (now : Int) (q : List TaskNode) (newTask : TaskNode) : Option (List TaskNode) :=
  if TASK_QUEUE_MAX ≤ q.length then
    match removeOldestNonRunningTask now q with
    | none => none
    | some q' => some (q' ++ [newTask])
  else
    some (q ++ [newTask])

theorem findOldestScan_acc_some (l : List TaskNode) (ts : Int) (i idx : Nat) :
    (findOldestScan l ts (some i) idx).isSome = true := by
  induction l generalizing ts i idx with
  | nil => rfl
  | cons t rest ih =>
      unfold findOldestScan
      by_cases h : (canRemoveTask t && decide (t.created < ts)) = true
      · rw [if_pos h]
        exact ih _ _ _
      · rw [if_neg h]
        exact ih _ _ _

theorem findOldestScan_isSome_iff (l : List TaskNode) (ts : Int) (idx : Nat) :
    (findOldestScan l ts none idx).isSome = true ↔
      ∃ e ∈ l, canRemoveTask e = true ∧ e.created < ts := by
  induction l generalizing ts idx with
  | nil => simp [findOldestScan]
  | cons t rest ih =>
      unfold findOldestScan
      by_cases h : (canRemoveTask t && decide (t.created < ts)) = true
      · rw [if_pos h]
        rw [Bool.and_eq_true, decide_eq_true_iff] at h
        constructor
        · intro _
          exact ⟨t, List.mem_cons_self t rest, h.1, h.2⟩
        · intro _
          exact findOldestScan_acc_some rest t.created idx (idx + 1)
      · rw [if_neg h, ih]
        constructor
        · rintro ⟨e, he, hc, hlt⟩
          exact ⟨e, List.mem_cons_of_mem t he, hc, hlt⟩
        · rintro ⟨e, he, hc, hlt⟩
          rcases List.mem_cons.mp he with rfl | he'
          · exfalso
            apply h
            rw [Bool.and_eq_true, decide_eq_true_iff]
            exact ⟨hc, hlt⟩
          · exact ⟨e, he', hc, hlt⟩

def c2Active : TaskNode :=
  { status := .active, created := 0, timeout := -1, lastEvaluated := 0,
    deleteTask := false, relationshipType := "", relationshipId := "" }

def c2CompletedNow : TaskNode :=
  { status := .completed, created := 5, timeout := -1, lastEvaluated := 0,
    deleteTask := false, relationshipType := "", relationshipId := "" }

def c2OldCompleted : TaskNode :=
  { status := .completed, created := 1, timeout := -1, lastEvaluated := 0,
    deleteTask := false, relationshipType := "", relationshipId := "" }

def c2New : TaskNode :=
  { status := .pending, created := 5, timeout := -1, lastEvaluated := 0,
    deleteTask := false, relationshipType := "", relationshipId := "" }

def c2Queue : List TaskNode := List.replicate 99 c2Active ++ [c2CompletedNow]

def c2QueueOld : List TaskNode := List.replicate 99 c2Active ++ [c2OldCompleted]

/-- C2 counterexample: the queue holds `TASK_QUEUE_MAX` actions and one of
them has terminal status `completed`, yet `queue_task` rejects the
submission, because `remove_oldest_non_running_task` only evicts tasks
whose creation timestamp is strictly below the current time and the
terminal task was created in the current second. -/
theorem C2_counterexample :
    queueTask 5 c2Queue c2New = none ∧ ∃ e ∈ c2Queue, canRemoveTask e = true := by
  decide

/-- C2 (amended): for a submission to a queue holding `TASK_QUEUE_MAX`
(100) actions, `queue_task` accepts if and only if some queued action has
a terminal status (completed, stopped or failed) and a creation timestamp
strictly earlier than the submission time; otherwise the submission fails
and the queue is left unchanged. -/
theorem C2_queue_full_submission_iff (now : Int) (q : List TaskNode) (t : TaskNode)
    (hfull : TASK_QUEUE_MAX ≤ q.length) :
    (queueTask now q t).isSome = true ↔
      ∃ e ∈ q, canRemoveTask e = true ∧ e.created < now := by
  have h := findOldestScan_isSome_iff q now 0
  unfold queueTask removeOldestNonRunningTask
  rw [if_pos hfull]
  cases hscan : findOldestScan q now none 0 with
  | none =>
      rw [hscan] at h
      simp only [Option.isSome_none, Bool.false_eq_true, false_iff] at h
      simp only [Option.isSome_none, Bool.false_eq_true, false_iff]
      exact h
  | some i =>
      rw [hscan] at h
      simp only [Option.isSome_some, true_iff] at h
      simp only [Option.isSome_some, true_iff]
      exact h

theorem C2_queue_full_submission_iff_witness :
    TASK_QUEUE_MAX ≤ c2QueueOld.length ∧
      ((queueTask 5 c2QueueOld c2New).isSome = true ↔
        ∃ e ∈ c2QueueOld, canRemoveTask e = true ∧ e.created < 5) :=
  ⟨by decide, C2_queue_full_submission_iff 5 c2QueueOld c2New (by decide)⟩

/-- `AllowListEntry::AllowListEntryState` (commissioner_allow_list.hpp). -/
inductive AllowListEntryState
  | newEntry
  | pendingJoiner
  | joinAttempted
  | joined
  | joinFailed
  | expired
deriving DecidableEq, Repr

/-- An allow-list node (`AllowListEntry`); the eui64 is modelled as its
8 bytes, pskd/uuid/timeout are irrelevant to the joiner-event logic. -/
structure AllowListEntry where
  eui64 : List Nat
  state : AllowListEntryState
deriving DecidableEq, Repr

/-- `otExtAddressMatch` (commissioner_allow_list.cpp): byte-wise equality. -/
def otExtAddressMatch (a b : List Nat) : Bool := a == b

/-- `eui64IsNull` (commissioner_allow_list.cpp). -/
def eui64IsNull (a : List Nat) : Bool := a.all (· == 0)

/-- `allowListGetPendingJoinersCount` (commissioner_allow_list.cpp,
lines 427-444), embedded verbatim: an entry is counted when
`(kAllowListEntryJoined != entry->mstate) || (kAllowListEntryJoinFailed != entry->mstate)`. -/
def allowListGetPendingJoinersCount (l : List AllowListEntry) : Nat :=
  (l.filter (fun e => !(e.state == .joined) || !(e.state == .joinFailed))).length

/-- Apply `f` to the first entry whose eui64 matches (the C code mutates
the node returned by `entryEui64Find`). -/
def updateFirstEntry (eui : List Nat) (f : AllowListEntry → AllowListEntry) :
    List AllowListEntry → List AllowListEntry
  | [] => []
  | e :: rest =>
      if otExtAddressMatch e.eui64 eui then f e :: rest
      else e :: updateFirstEntry eui f rest

structure JoinerRemovedOutcome where
  entries : List AllowListEntry
  stopPosted : Bool
deriving DecidableEq, Repr

/-- The `OT_COMMISSIONER_JOINER_REMOVED` arm of `HandleJoinerEvent`
(commissioner_allow_list.cpp, lines 446-523): demote the matching entry
(PendingJoiner to Expired, any other non-Joined state to JoinFailed),
then post a Commissioner Stop when `allowListGetPendingJoinersCount`
returns zero.  (`allowListCommissionerStopPost` itself, lines 534-537,
is a stub that only returns `OT_ERROR_NONE`.) -/
def handleJoinerEventRemoved (l : List AllowListEntry) (eui : List Nat) : JoinerRemovedOutcome :=
  let entryFound := l.any (fun e => otExtAddressMatch e.eui64 eui)
  if !entryFound && eui64IsNull eui then
    { entries := l, stopPosted := false }
  else
    let l' :=
      if entryFound then
        updateFirstEntry eui
          (fun e =>
            if e.state == .pendingJoiner then { e with state := .expired }
            else if !(e.state == .joined) then { e with state := .joinFailed }
            else e) l
      else l
    { entries := l', stopPosted := allowListGetPendingJoinersCount l' == 0 }

theorem allowListPendingCount_eq_length (l : List AllowListEntry) :
    allowListGetPendingJoinersCount l = l.length := by
  unfold allowListGetPendingJoinersCount
  have h : ∀ e : AllowListEntry, (!(e.state == .joined) || !(e.state == .joinFailed)) = true := by
    intro e
    cases he : e.state <;> simp [he]
  rw [List.filter_eq_self.mpr (fun e _ => h e)]

/-- C10: the pending-joiner condition
`(Joined != mstate) || (JoinFailed != mstate)` is a tautology, so after a
joiner-removed event every allow-list entry counts as pending; with a
single entry in the terminal `Joined` state no Commissioner Stop is
posted even though zero non-terminal entries remain, contradicting the
claim (and `allowListCommissionerStopPost` is a no-op stub besides). -/
theorem C10_stop_not_posted_with_all_terminal :
    (handleJoinerEventRemoved
        [{ eui64 := [1, 2, 3, 4, 5, 6, 7, 8], state := .joined }]
        [1, 2, 3, 4, 5, 6, 7, 8]).stopPosted = false ∧
      (handleJoinerEventRemoved
          [{ eui64 := [1, 2, 3, 4, 5, 6, 7, 8], state := .joined }]
          [1, 2, 3, 4, 5, 6, 7, 8]).entries.all
        (fun e => e.state == .joined) = true := by
  decide

/-- `hex_char_to_int` (rest_server_common.cpp); `none` models the -1 return. -/
def hexCharToInt (c : Char) : Option Nat :=
  if 'A' ≤ c ∧ c ≤ 'F' then some (c.toNat - 'A'.toNat + 10)
  else if 'a' ≤ c ∧ c ≤ 'f' then some (c.toNat - 'a'.toNat + 10)
  else if '0' ≤ c ∧ c ≤ '9' then some (c.toNat - '0'.toNat)
  else none

/-- `is_hex_string` (rest_server_common.cpp): an optional `0x` is allowed,
the rest must be hex digits. -/
def isHexString (s : String) : Bool :=
  match s.toList with
  | a :: 'x' :: rest => a == '0' && rest.all (fun c => (hexCharToInt c).isSome)
  | l => l.all (fun c => (hexCharToInt c).isSome)

def strToM8Go : List Char → Nat → Option (List Nat)
  | _, 0 => some []
  | c1 :: c2 :: rest, n + 1 =>
      match hexCharToInt c1, hexCharToInt c2 with
      | some h1, some h2 => (strToM8Go rest n).map (fun bs => (h1 * 16 + h2) :: bs)
      | _, _ => none
  | _, _ + 1 => none

/-- `str_to_m8` (rest_server_common.cpp): parse `size` bytes from the
first `2 * size` hex characters; fails when the string is too short or a
character is not a hex digit. -/
def strToM8 (s : String) (size : Nat) : Option (List Nat) :=
  if size * 2 > s.length then none else strToM8Go s.toList size

/-- Length bounds for the PSK-d; values 6 and 32 as in the API schema
(`OT_PSKD_LENGTH_MIN`/`OT_PSKD_LENGTH_MAX` of rest_server_common.hpp,
which is not part of this snapshot). -/
def OT_PSKD_LENGTH_MIN : Nat := 6

def OT_PSKD_LENGTH_MAX : Nat := 32

def isalnumChar (c : Char) : Bool :=
  ('0' ≤ c && c ≤ '9') || ('A' ≤ c && c ≤ 'Z') || ('a' ≤ c && c ≤ 'z')

def islowerChar (c : Char) : Bool := 'a' ≤ c && c ≤ 'z'

/-- `joiner_verify_pskd` (rest_server_common.cpp): length between 6 and
32, all characters uppercase alphanumeric, excluding I, O, Q and Z.
`true` models the `WPANSTATUS_OK` return. -/
def joinerVerifyPskd (p : String) : Bool :=
  if OT_PSKD_LENGTH_MIN > p.length then false
  else if OT_PSKD_LENGTH_MAX < p.length then false
  else p.toList.all fun c =>
    isalnumChar c && !islowerChar c && !(c == 'I' || c == 'O' || c == 'Q' || c == 'Z')

/-- `taskNameAddThreadDevice`, the only name registered in the
`handlers[]` table of rest_task_queue.cpp (all other task types are
commented out of `rest_actions_task_t`). -/
def taskNameAddThreadDevice : String := "addThreadDeviceTask"

/-- `strncmp(task_name, type_name, strlen(type_name)) == 0` as used by
`task_type_id_from_name`: the registered name must be a prefix of the
submitted type string. -/
def strncmpMatches (name pat : String) : Bool :=
  name.toList.take pat.toList.length == pat.toList

/-- `task_type_id_from_name` (rest_task_queue.cpp) over the one-entry
`handlers[]` table. -/
def taskTypeIdFromName (name : String) : Option Nat :=
  if strncmpMatches name taskNameAddThreadDevice then some 0 else none

/-- The `attributes` object of an add-thread-device task as far as
`validate_add_thread_device_task` inspects it. -/
structure AddDeviceAttributes where
  timeoutPresent : Bool
  eui : Option String
  pskd : Option String
deriving DecidableEq, Repr

/-- `validate_add_thread_device_task` (rest_task_add_thread_device.cpp):
timeout numeric, eui a 16-char hex string convertible to 8 bytes, pskd
passing `joiner_verify_pskd`. -/
def validateAddThreadDeviceTask (a : AddDeviceAttributes) : Bool :=
  a.timeoutPresent &&
  (match a.eui with
   | some e => e.length == 16 && isHexString e && (strToM8 e 8).isSome
   | none => false) &&
  (match a.pskd with
   | some p => joinerVerifyPskd p
   | none => false)

/-- `validate_task` (rest_task_queue.cpp): the task must carry a type
string and an attributes object (assumed here), the type must resolve via
`task_type_id_from_name`, and the resolved handler's validator must
accept the attributes.  The only registered handler is
add-thread-device. -/
def validateTask (typeName : String) (attrs : AddDeviceAttributes) : Bool :=
  match taskTypeIdFromName typeName with
  | some 0 => validateAddThreadDeviceTask attrs
  | _ => false

def c5Attrs : AddDeviceAttributes :=
  { timeoutPresent := true, eui := some "0011223344556677", pskd := some "J01NME" }

/-- C5 counterexample: with attributes that the add-thread-device schema
accepts, `validate_task` accepts `addThreadDeviceTask` but rejects
`getNetworkDiagnosticTask`, `resetNetworkDiagCounterTask` and
`getEnergyScanTask`: only one of the four claimed action types is
registered in the `handlers[]` table (and attribute validation is never
even reached for the other three names). -/
theorem C5_counterexample :
    validateTask "addThreadDeviceTask" c5Attrs = true ∧
      validateTask "getNetworkDiagnosticTask" c5Attrs = false ∧
      validateTask "resetNetworkDiagCounterTask" c5Attrs = false ∧
      validateTask "getEnergyScanTask" c5Attrs = false := by
  decide

/-- C5 (amended): submission validation accepts exactly the task type
strings that extend the single registered name `addThreadDeviceTask`
(matched by `strncmp` prefix comparison) with attributes satisfying the
add-thread-device schema; every other type string is rejected. -/
theorem C5_accepted_types (ty : String) (attrs : AddDeviceAttributes)
    (h : validateAddThreadDeviceTask attrs = true) :
    validateTask ty attrs = true ↔ strncmpMatches ty taskNameAddThreadDevice = true := by
  unfold validateTask taskTypeIdFromName
  by_cases hm : strncmpMatches ty taskNameAddThreadDevice = true
  · rw [if_pos hm]
    simpa [h] using hm
  · rw [if_neg hm]
    simp only [Bool.false_eq_true]
    exact (iff_false_intro hm).symm

theorem C5_accepted_types_witness :
    validateAddThreadDeviceTask c5Attrs = true ∧
      (validateTask "addThreadDeviceTask" c5Attrs = true ↔
        strncmpMatches "addThreadDeviceTask" taskNameAddThreadDevice = true) :=
  ⟨by decide, C5_accepted_types "addThreadDeviceTask" c5Attrs (by decide)⟩

/-- `combineMeshLocalPrefixAndIID` (rest_server_common.cpp): first 8
bytes from the mesh-local prefix, last 8 bytes from the IID. -/
def combineMeshLocalPrefixAndIID (mlp iid : List Nat) : List Nat :=
  mlp.take 8 ++ iid.take 8

/-- `sscanf(s, "%hx", &rloc)`: skip spaces, allow an optional `0x`/`0X`,
read the leading hex digits, truncate to 16 bits; `none` when no digit
matches (the C code then leaves `rloc` at its initial `0xfffe`). -/
def sscanfHx (s : String) : Option Nat :=
  let l := s.toList.dropWhile (· == ' ')
  let l := match l with
    | '0' :: 'x' :: rest => rest
    | '0' :: 'X' :: rest => rest
    | other => other
  let digits := l.takeWhile fun c => (hexCharToInt c).isSome
  if digits.isEmpty then none
  else some ((digits.foldl (fun acc c => 16 * acc + (hexCharToInt c).getD 0) 0) % 65536)

/-- `NetworkDiagHandler::LookupDestinationAddr`
(network_diag_handler.cpp, lines 213-266).  The devices collection is
abstracted to the map from device ids to their learned ML-EID-IID bytes;
`rlocAddr` is the node's RLOC (16 bytes); `junkIid` stands for the
uninitialised stack contents used when `str_to_m8` fails, since the C
code ignores its return value in the 16-character branch. -/
def LookupDestinationAddr (devices : List (String × List Nat))
    (mlp rlocAddr junkIid : List Nat) (dest : String) :
    Option (List Nat) × OtbrError :=
  match (devices.find? (fun p => p.1 == dest)).map (·.2) with
  | some iid =>
      (some (combineMeshLocalPrefixAndIID mlp iid),
        if iid.all (· == 0) then OtbrError.parse else OtbrError.ok)
  | none =>
      if dest.length == 16 then
        (some (combineMeshLocalPrefixAndIID mlp ((strToM8 dest 8).getD junkIid)), OtbrError.ok)
      else if dest.length == 6 then
        let rloc := (sscanfHx dest).getD 0xfffe
        (some (rlocAddr.take 14 ++ [rloc / 256 % 256, rloc % 256]), OtbrError.ok)
      else
        (none, OtbrError.parse)

def c6Mlp : List Nat := [0xfd, 0x11, 0x22, 0, 0, 0, 0, 0]

def c6RlocAddr : List Nat := [0xfd, 0x11, 0x22, 0, 0, 0, 0, 0, 0, 0, 0, 0xff, 0xfe, 0, 0x10, 0]

/-- C6 counterexample: the destination `"0800"` (4 hex characters, not a
known device id) yields `OTBR_ERROR_PARSE` instead of resolving to an
rloc16 address: the rloc16 branch of `LookupDestinationAddr` requires a
string of length 6 such as `"0x0800"`, not 4 hex characters. -/
theorem C6_counterexample :
    LookupDestinationAddr [] c6Mlp c6RlocAddr [0, 0, 0, 0, 0, 0, 0, 0] "0800" =
        (none, OtbrError.parse) ∧
      LookupDestinationAddr [] c6Mlp c6RlocAddr [0, 0, 0, 0, 0, 0, 0, 0] "0x0800" =
        (some (c6RlocAddr.take 14 ++ [0x08, 0x00]), OtbrError.ok) := by
  decide

/-- C6 (amended): for a destination that is not a known device id, a
16-character hex string is parsed as an ML-EID-IID and resolves to the
mesh-local prefix concatenated with those 8 bytes; a 6-character string
(`0x` plus 4 hex digits) is parsed by `sscanf("%hx")` as an rloc16 and
resolves to the node's RLOC address with the rloc16 as the final 16
bits; a string of any other length yields a parse error. -/
theorem C6_destination_resolution (devices : List (String × List Nat))
    (mlp rlocAddr junkIid : List Nat) (dest : String) (iid : List Nat)
    (hnotdev : devices.find? (fun p => p.1 == dest) = none) :
    (dest.length = 16 → strToM8 dest 8 = some iid →
        LookupDestinationAddr devices mlp rlocAddr junkIid dest =
          (some (combineMeshLocalPrefixAndIID mlp iid), OtbrError.ok)) ∧
      (dest.length = 6 →
        LookupDestinationAddr devices mlp rlocAddr junkIid dest =
          (some (rlocAddr.take 14 ++
              [((sscanfHx dest).getD 0xfffe) / 256 % 256, ((sscanfHx dest).getD 0xfffe) % 256]),
            OtbrError.ok)) ∧
      (dest.length ≠ 16 → dest.length ≠ 6 →
        LookupDestinationAddr devices mlp rlocAddr junkIid dest = (none, OtbrError.parse)) := by
  unfold LookupDestinationAddr
  rw [hnotdev]
  refine ⟨?_, ?_, ?_⟩
  · intro h16 hparse
    simp [h16, hparse]
  · intro h6
    simp [h6]
  · intro h16 h6
    simp [h16, h6]

theorem C6_destination_resolution_witness :
    (List.find? (fun p => p.1 == "00112233aabbccdd") ([] : List (String × List Nat)) = none) ∧
      ((("00112233aabbccdd" : String).length = 16 →
          strToM8 "00112233aabbccdd" 8 = some [0x00, 0x11, 0x22, 0x33, 0xaa, 0xbb, 0xcc, 0xdd] →
          LookupDestinationAddr [] c6Mlp c6RlocAddr [0, 0, 0, 0, 0, 0, 0, 0] "00112233aabbccdd" =
            (some (combineMeshLocalPrefixAndIID c6Mlp
                [0x00, 0x11, 0x22, 0x33, 0xaa, 0xbb, 0xcc, 0xdd]), OtbrError.ok)) ∧
        (("00112233aabbccdd" : String).length = 6 →
          LookupDestinationAddr [] c6Mlp c6RlocAddr [0, 0, 0, 0, 0, 0, 0, 0] "00112233aabbccdd" =
            (some (c6RlocAddr.take 14 ++
                [((sscanfHx "00112233aabbccdd").getD 0xfffe) / 256 % 256,
                  ((sscanfHx "00112233aabbccdd").getD 0xfffe) % 256]), OtbrError.ok)) ∧
        (("00112233aabbccdd" : String).length ≠ 16 → ("00112233aabbccdd" : String).length ≠ 6 →
          LookupDestinationAddr [] c6Mlp c6RlocAddr [0, 0, 0, 0, 0, 0, 0, 0] "00112233aabbccdd" =
            (none, OtbrError.parse))) :=
  ⟨by decide,
    C6_destination_resolution [] c6Mlp c6RlocAddr [0, 0, 0, 0, 0, 0, 0, 0] "00112233aabbccdd"
      [0x00, 0x11, 0x22, 0x33, 0xaa, 0xbb, 0xcc, 0xdd] (by decide)⟩

/-- `kTlvTypeMap` (rest_task_network_diagnostic.cpp /
network_diag_handler.cpp): TLV attribute name to TLV type code. -/
def kTlvTypeMap : List (String × Nat) :=
  [("extAddress", 0), ("rloc16", 1), ("mode", 2), ("timeout", 3), ("connectivity", 4),
    ("route", 5), ("leaderData", 6), ("networkData", 7), ("ip6AddressList", 8),
    ("macCounters", 9), ("batteryLevel", 14), ("supplyVoltage", 15), ("childTable", 16),
    ("channelPages", 17), ("maxChildTimeout", 19), ("ldevid", 20), ("idev", 21),
    ("eui64", 23), ("version", 24), ("vendorName", 25), ("vendorModel", 26),
    ("vendorSwVersion", 27), ("threadStackVersion", 28), ("children", 29),
    ("childrenIp6", 30), ("neighbors", 31), ("mleCounters", 34)]

def kTlvTypeMapFind (s : String) : Option Nat :=
  (kTlvTypeMap.find? (fun p => p.1 == s)).map (·.2)

/-- `validResetableTLV` (rest_task_network_diagnostic.cpp): only the MAC
counters and MLE counters TLV names may be reset. -/
def validResetableTLV (s : String) : Bool :=
  s == "macCounters" || s == "mleCounters"

/-- The `cJSON_ArrayForEach` loop of
`process_network_diagnostic_reset_task` (rest_task_network_diagnostic.cpp,
lines 312-354): `count` is incremented before the array write, so the
i-th requested type code lands in `tlvTypes[i + 1]`.  The buffer is
modelled as an unbounded store seeded with the uninitialised stack
contents `junk` (the declared C array holds only 2 bytes, so the write at
index 2 is out of bounds).  Returns the final `count` and the store. -/
def resetTaskTlvBuffer (types : List String) (junk : Nat → Nat) : Nat × (Nat → Nat) :=
  types.foldl
    (fun st name =>
      let c := st.1 + 1
      (c, fun i => if i = c then (kTlvTypeMapFind name).getD 0 else st.2 i))
    (0, junk)

/-- The TLV-type list passed to `otThreadSendDiagnosticReset`:
`tlvTypes[0 .. count-1]`. -/
def resetTaskSentTlvs (types : List String) (junk : Nat → Nat) : List Nat :=
  let st := resetTaskTlvBuffer types junk
  (List.range st.1).map st.2

/-- C7: the Diagnostic Reset multicast does not carry the requested type
codes.  For `types = ["macCounters"]` the sent list is the single
uninitialised byte `tlvTypes[0]` (code 9 is written to index 1 but never
sent); for `types = ["macCounters", "mleCounters"]` the sent list is
`[tlvTypes[0], 9]` — the MLE counters code 34 is written out of bounds at
index 2 of the 2-byte buffer and dropped. -/
theorem C7_reset_sends_shifted_tlv_list (junk : Nat → Nat) :
    resetTaskSentTlvs ["macCounters"] junk = [junk 0] ∧
      resetTaskSentTlvs ["macCounters", "mleCounters"] junk = [junk 0, 9] := by
  constructor <;> rfl

/-- `DeviceInfo` (rest/types.hpp): the attribute payload of a device item. -/
structure DeviceInfo where
  extAddress : List Nat
  mlEidIid : List Nat
  eui64 : List Nat
  ip6Addr : List Nat
  hostName : String
  role : String
  modeDeviceType : Bool
  modeRxOnWhenIdle : Bool
  modeNetworkData : Bool
  needsUpdate : Bool
deriving DecidableEq, Repr

/-- The node-level extras of `ThisThreadDevice` (border-agent id, leader
data etc. are external facts read from the Thread stack; only the fields
relevant to the embedding are carried). -/
structure NodeInfo where
  role : String
  networkName : String
  rloc16 : Nat
  numOfRouter : Nat
deriving DecidableEq, Repr

/-- A devices-collection item: `ThreadDevice`, or `ThisThreadDevice` when
`nodeInfo` is present.  `itemId` is the lowercase-hex extended address. -/
structure DeviceItem where
  itemId : String
  deviceInfo : DeviceInfo
  nodeInfo : Option NodeInfo
deriving DecidableEq, Repr

def DEVICE_TYPE_NAME : String := "threadDevice"

def DEVICE_BR_TYPE_NAME : String := "threadBorderRouter"

def NWK_DIAG_TYPE_NAME : String := "networkDiagnostics"

def DEVICE_COLLECTION_NAME : String := "devices"

def DIAG_COLLECTION_NAME : String := "diagnostics"

def DeviceItem.getTypeName (d : DeviceItem) : String :=
  match d.nodeInfo with
  | some _ => DEVICE_BR_TYPE_NAME
  | none => DEVICE_TYPE_NAME

/-- The data carried by a diagnostic TLV, as far as the handler inspects
it; TLVs whose payload is never read are `raw`. -/
inductive TlvData
  | extAddressData (b : List Nat)
  | addr16 (r : Nat)
  | eui64Data (b : List Nat)
  | ip6List (l : List (List Nat))
  | raw (v : Nat)
deriving DecidableEq, Repr

/-- `otNetworkDiagTlv`: type code plus payload. -/
structure DiagTlv where
  typ : Nat
  data : TlvData
deriving DecidableEq, Repr

/-- `otMeshDiagChildEntry` fields used by the handler. -/
structure ChildEntry where
  rloc16 : Nat
  extAddress : List Nat
  deviceTypeFtd : Bool
  rxOnWhenIdle : Bool
  fullNetData : Bool
deriving DecidableEq, Repr

/-- `DeviceIp6Addrs` (rest/types.hpp). -/
structure DeviceIp6Addrs where
  rloc16 : Nat
  ip6Addrs : List (List Nat)
deriving DecidableEq, Repr

/-- `networkDiagTlvExtensions`: border-routing counters or the service
role flags. -/
inductive TlvExtension
  | brCounters
  | serviceRoleFlags (isLeader isPrimaryBBR hostsService isBorderRouter : Bool)
deriving DecidableEq, Repr

/-- A `NetworkDiagnostics` item of the diagnostics collection; the uuid
is modelled as a counter value rendered in decimal. -/
structure DiagItem where
  uuid : Nat
  deviceTlvSet : List DiagTlv
  children : List ChildEntry
  childrenIp6Addrs : List DeviceIp6Addrs
  neighbors : List Nat
  deviceTlvSetExtension : List TlvExtension
deriving DecidableEq, Repr

def DiagItem.getId (d : DiagItem) : String := toString d.uuid

def DiagItem.getTypeName (_ : DiagItem) : String := NWK_DIAG_TYPE_NAME

/-- `BasicCollection` (rest_generic_collection.hpp): the item map, the
per-type counters and the age-sorted eviction FIFO. -/
structure BasicCollection (α : Type) where
  coll : List (String × α)
  holdsTypes : List (String × Nat)
  ageSortedItemIds : List String
deriving DecidableEq, Repr

def mapFind (m : List (String × α)) (k : String) : Option α :=
  (m.find? (fun p => p.1 == k)).map (·.2)

def mapContains (m : List (String × α)) (k : String) : Bool :=
  m.any (fun p => p.1 == k)

def mapInsert (m : List (String × α)) (k : String) (v : α) : List (String × α) :=
  if mapContains m k then m.map (fun p => if p.1 == k then (k, v) else p)
  else m ++ [(k, v)]

def mapEraseKey (m : List (String × α)) (k : String) : List (String × α) :=
  m.filter (fun p => !(p.1 == k))

/-- `BasicCollection::incrHoldsTypes`. -/
def incrHoldsTypes (h : List (String × Nat)) (ty : String) : List (String × Nat) :=
  if mapContains h ty then h.map (fun p => if p.1 == ty then (p.1, p.2 + 1) else p)
  else h ++ [(ty, 1)]

/-- `BasicCollection::decrHoldsTypes`: decrement when positive, erase the
counter when it reaches zero. -/
def decrHoldsTypes (h : List (String × Nat)) (ty : String) : List (String × Nat) :=
  match mapFind h ty with
  | none => h
  | some n =>
      let n' := if 0 < n then n - 1 else n
      if n' = 0 then mapEraseKey h ty
      else h.map (fun p => if p.1 == ty then (p.1, n') else p)

/-- `BasicCollection::evictOldestItem` (rest_generic_collection.cpp,
lines 337-359): pop the oldest id from the FIFO; when it is still a key
of the map, also remove the item and decrement its type counter. -/
def BasicCollection.evictOldestItem (getTypeName : α → String) (c : BasicCollection α) :
    BasicCollection α :=
  match c.ageSortedItemIds with
  | [] => c
  | oldest :: rest =>
      match mapFind c.coll oldest with
      | some item =>
          { coll := mapEraseKey c.coll oldest
            holdsTypes := decrHoldsTypes c.holdsTypes (getTypeName item)
            ageSortedItemIds := rest }
      | none => { c with ageSortedItemIds := rest }

/-- The `while (mCollection.size() >= MAX) evictOldestItem();` loop of the
two `addItem` implementations.  Each `evictOldestItem` call pops one id
from the FIFO, so the loop is bounded by the FIFO length (with an empty
FIFO and a full map the C loop would not terminate, which the invariant
`keysInAgeList` below rules out). -/
def evictWhileLoop (getTypeName : α → String) (maxSize : Nat) :
    Nat → BasicCollection α → BasicCollection α
  | 0, c => c
  | fuel + 1, c =>
      if maxSize ≤ c.coll.length then
        evictWhileLoop getTypeName maxSize fuel (c.evictOldestItem getTypeName)
      else c

/-- The shape shared by `DevicesCollection::addItem` and
`DiagnosticsCollection::addItem`: evict until below the maximum, insert
the (cloned) item under its id, bump the type counter, append the id to
the FIFO. -/
def BasicCollection.addItem (getId getTypeName : α → String) (maxSize : Nat)
    (c : BasicCollection α) (item : α) : BasicCollection α :=
  let c' := evictWhileLoop getTypeName maxSize c.ageSortedItemIds.length c
  { coll := mapInsert c'.coll (getId item) item
    holdsTypes := incrHoldsTypes c'.holdsTypes (getTypeName item)
    ageSortedItemIds := c'.ageSortedItemIds ++ [getId item] }

def MAX_DEVICES_COLLECTION_ITEMS : Nat := 200

def MAX_DIAG_COLLECTION_ITEMS : Nat := 200

/-- `DevicesCollection::addItem` (rest_devices_coll.cpp, lines 173-191). -/
def DevicesCollection.addItem (c : BasicCollection DeviceItem) (item : DeviceItem) :
    BasicCollection DeviceItem :=
  BasicCollection.addItem DeviceItem.itemId DeviceItem.getTypeName
    MAX_DEVICES_COLLECTION_ITEMS c item

/-- `DiagnosticsCollection::addItem` (rest_diagnostics_coll.cpp,
lines 125-142). -/
def DiagnosticsCollection.addItem (c : BasicCollection DiagItem) (item : DiagItem) :
    BasicCollection DiagItem :=
  BasicCollection.addItem DiagItem.getId DiagItem.getTypeName
    MAX_DIAG_COLLECTION_ITEMS c item

/-- `DevicesCollection::getItem` / `DiagnosticsCollection::getItem`. -/
def BasicCollection.getItem (c : BasicCollection α) (k : String) : Option α :=
  mapFind c.coll k

/-- `BasicCollection::clear` (rest_generic_collection.cpp, lines 206-209):
only `mCollection.clear()` — the type counters and the eviction FIFO are
not touched. -/
def BasicCollection.clear (c : BasicCollection α) : BasicCollection α :=
  { c with coll := [] }

/-- Every key of the item map appears in the eviction FIFO.  This holds
for collections built through `addItem`/`evictOldestItem`/`clear` and is
what keeps the eviction loop total (the FIFO may contain stale ids that
are no longer keys). -/
def keysInAgeList (c : BasicCollection α) : Prop :=
  ∀ p ∈ c.coll, p.1 ∈ c.ageSortedItemIds

theorem mapFind_eq_none_iff (m : List (String × α)) (k : String) :
    mapFind m k = none ↔ ∀ p ∈ m, p.1 ≠ k := by
  unfold mapFind
  rw [Option.map_eq_none', List.find?_eq_none]
  constructor
  · intro h p hp
    have := h p hp
    simpa using this
  · intro h p hp
    simpa using h p hp

theorem mapInsert_length_le (m : List (String × α)) (k : String) (v : α) :
    (mapInsert m k v).length ≤ m.length + 1 := by
  unfold mapInsert
  by_cases h : mapContains m k = true
  · rw [if_pos h, List.length_map]
    omega
  · rw [if_neg h, List.length_append]
    simp

theorem mapInsert_keys (m : List (String × α)) (k : String) (v : α) :
    ∀ p ∈ mapInsert m k v, p.1 = k ∨ ∃ q ∈ m, p.1 = q.1 := by
  intro p hp
  unfold mapInsert at hp
  by_cases h : mapContains m k = true
  · rw [if_pos h] at hp
    rcases List.mem_map.mp hp with ⟨q, hq, hpq⟩
    by_cases hqk : (q.1 == k) = true
    · rw [if_pos hqk] at hpq
      left
      rw [← hpq]
    · rw [if_neg hqk] at hpq
      right
      exact ⟨q, hq, by rw [← hpq]⟩
  · rw [if_neg h] at hp
    rcases List.mem_append.mp hp with hp' | hp'
    · right
      exact ⟨p, hp', rfl⟩
    · left
      simp at hp'
      rw [hp']

theorem evictOldestItem_ids_tail (g : α → String) (m : List (String × α))
    (h : List (String × Nat)) (o : String) (rest : List String) :
    (BasicCollection.evictOldestItem g ⟨m, h, o :: rest⟩).ageSortedItemIds = rest := by
  cases hfind : mapFind m o <;> simp [BasicCollection.evictOldestItem, hfind]

theorem evictOldestItem_coll_le (g : α → String) (c : BasicCollection α) :
    (c.evictOldestItem g).coll.length ≤ c.coll.length := by
  obtain ⟨m, h, ids⟩ := c
  cases ids with
  | nil => exact Nat.le_refl _
  | cons o rest =>
      cases hfind : mapFind m o with
      | none => simp [BasicCollection.evictOldestItem, hfind]
      | some item =>
          simp only [BasicCollection.evictOldestItem, hfind, mapEraseKey]
          exact List.length_filter_le _ _

theorem evictOldestItem_keys (g : α → String) (c : BasicCollection α)
    (hinv : keysInAgeList c) : keysInAgeList (c.evictOldestItem g) := by
  obtain ⟨m, h, ids⟩ := c
  cases ids with
  | nil => exact hinv
  | cons o rest =>
      cases hfind : mapFind m o with
      | none =>
          intro p hp
          simp only [BasicCollection.evictOldestItem, hfind] at hp ⊢
          have hmem := hinv p hp
          rcases List.mem_cons.mp hmem with heq | hmem'
          · exact absurd heq ((mapFind_eq_none_iff m o).mp hfind p hp)
          · exact hmem'
      | some item =>
          intro p hp
          simp only [BasicCollection.evictOldestItem, hfind, mapEraseKey,
            List.mem_filter] at hp ⊢
          have hmem := hinv p hp.1
          rcases List.mem_cons.mp hmem with heq | hmem'
          · exfalso
            have hne : (p.1 == o) = false := by simpa using hp.2
            rw [heq] at hne
            simp at hne
          · exact hmem'

theorem coll_nil_of_ids_nil (c : BasicCollection α) (hinv : keysInAgeList c)
    (hids : c.ageSortedItemIds = []) : c.coll = [] := by
  rcases hc : c.coll with _ | ⟨p, rest⟩
  · rfl
  · exfalso
    have := hinv p (by rw [hc]; exact List.mem_cons_self p rest)
    rw [hids] at this
    exact List.not_mem_nil _ this

theorem evictWhileLoop_spec (g : α → String) (maxSize : Nat) (hmax : 0 < maxSize)
    (fuel : Nat) :
    ∀ c : BasicCollection α, keysInAgeList c → c.ageSortedItemIds.length ≤ fuel →
      (evictWhileLoop g maxSize fuel c).coll.length < maxSize ∧
        keysInAgeList (evictWhileLoop g maxSize fuel c) := by
  induction fuel with
  | zero =>
      intro c hinv hlen
      have hids : c.ageSortedItemIds = [] := List.eq_nil_of_length_eq_zero (Nat.le_zero.mp hlen)
      have hcoll : c.coll = [] := coll_nil_of_ids_nil c hinv hids
      refine ⟨?_, hinv⟩
      simp [evictWhileLoop, hcoll, hmax]
  | succ fuel ih =>
      intro c hinv hlen
      obtain ⟨m, h, ids⟩ := c
      unfold evictWhileLoop
      by_cases hguard : maxSize ≤ m.length
      · rw [if_pos hguard]
        cases ids with
        | nil =>
            exfalso
            have hcoll : m = [] :=
              coll_nil_of_ids_nil (⟨m, h, []⟩ : BasicCollection α) hinv rfl
            rw [hcoll] at hguard
            simp at hguard
            omega
        | cons o rest =>
            have htail := evictOldestItem_ids_tail g m h o rest
            refine ih _ (evictOldestItem_keys g _ hinv) ?_
            rw [htail]
            simpa using Nat.le_of_succ_le_succ hlen
      · rw [if_neg hguard]
        exact ⟨Nat.lt_of_not_le hguard, hinv⟩

theorem addItem_spec (getId g : α → String) (maxSize : Nat) (hmax : 0 < maxSize)
    (c : BasicCollection α) (hinv : keysInAgeList c) (item : α) :
    (BasicCollection.addItem getId g maxSize c item).coll.length ≤ maxSize ∧
      keysInAgeList (BasicCollection.addItem getId g maxSize c item) := by
  have hspec := evictWhileLoop_spec g maxSize hmax c.ageSortedItemIds.length c hinv (le_refl _)
  unfold BasicCollection.addItem
  constructor
  · calc (mapInsert (evictWhileLoop g maxSize c.ageSortedItemIds.length c).coll
            (getId item) item).length
        ≤ (evictWhileLoop g maxSize c.ageSortedItemIds.length c).coll.length + 1 :=
          mapInsert_length_le _ _ _
      _ ≤ maxSize := hspec.1
  · intro p hp
    rcases mapInsert_keys _ _ _ p hp with heq | ⟨q, hq, hpq⟩
    · rw [heq]
      exact List.mem_append.mpr (Or.inr (List.mem_singleton.mpr rfl))
    · rw [hpq]
      exact List.mem_append.mpr (Or.inl (hspec.2 q hq))

/-- C8: for both collections, the item count stays at or below the
configured maximum of 200 after add, get, clear and eviction; the
eviction loop inside `addItem` terminates and re-establishes the bound
even when the age-ordered FIFO contains stale ids, as long as every live
key is somewhere in the FIFO. -/
theorem C8_collection_size_bounded
    (cd : BasicCollection DeviceItem) (cg : BasicCollection DiagItem)
    (d : DeviceItem) (g : DiagItem) (k : String)
    (hd : keysInAgeList cd) (hg : keysInAgeList cg)
    (hdlen : cd.coll.length ≤ MAX_DEVICES_COLLECTION_ITEMS)
    (hglen : cg.coll.length ≤ MAX_DIAG_COLLECTION_ITEMS) :
    (DevicesCollection.addItem cd d).coll.length ≤ MAX_DEVICES_COLLECTION_ITEMS ∧
      (DiagnosticsCollection.addItem cg g).coll.length ≤ MAX_DIAG_COLLECTION_ITEMS ∧
      (cd.evictOldestItem DeviceItem.getTypeName).coll.length ≤ MAX_DEVICES_COLLECTION_ITEMS ∧
      (cg.evictOldestItem DiagItem.getTypeName).coll.length ≤ MAX_DIAG_COLLECTION_ITEMS ∧
      cd.clear.coll.length ≤ MAX_DEVICES_COLLECTION_ITEMS ∧
      cg.clear.coll.length ≤ MAX_DIAG_COLLECTION_ITEMS ∧
      (BasicCollection.getItem cd k = mapFind cd.coll k ∧
        cd.coll.length ≤ MAX_DEVICES_COLLECTION_ITEMS) := by
  refine ⟨?_, ?_, ?_, ?_, ?_, ?_, rfl, hdlen⟩
  · exact (addItem_spec DeviceItem.itemId DeviceItem.getTypeName _ (by decide) cd hd d).1
  · exact (addItem_spec DiagItem.getId DiagItem.getTypeName _ (by decide) cg hg g).1
  · exact le_trans (evictOldestItem_coll_le _ cd) hdlen
  · exact le_trans (evictOldestItem_coll_le _ cg) hglen
  · simp [BasicCollection.clear]
  · simp [BasicCollection.clear]

def c8DevInfo : DeviceInfo :=
  { extAddress := [0xaa, 0xaa, 0xaa, 0xaa, 0xaa, 0xaa, 0xaa, 0xaa],
    mlEidIid := [0, 0, 0, 0, 0, 0, 0, 0], eui64 := [0, 0, 0, 0, 0, 0, 0, 0],
    ip6Addr := List.replicate 16 0, hostName := "", role := "router",
    modeDeviceType := true, modeRxOnWhenIdle := true, modeNetworkData := true,
    needsUpdate := false }

def c8Dev : DeviceItem :=
  { itemId := "aaaaaaaaaaaaaaaa", deviceInfo := c8DevInfo, nodeInfo := none }

def c8Diag : DiagItem :=
  { uuid := 7, deviceTlvSet := [{ typ := 1, data := TlvData.addr16 0x0800 }],
    children := [], childrenIp6Addrs := [], neighbors := [], deviceTlvSetExtension := [] }

/-- A devices collection whose FIFO carries the stale id `"zz"` ahead of
the one live key. -/
def c8DevColl : BasicCollection DeviceItem :=
  { coll := [("aaaaaaaaaaaaaaaa", c8Dev)],
    holdsTypes := [(DEVICE_TYPE_NAME, 1)],
    ageSortedItemIds := ["zz", "aaaaaaaaaaaaaaaa"] }

def c8DiagColl : BasicCollection DiagItem :=
  { coll := [("7", c8Diag)],
    holdsTypes := [(NWK_DIAG_TYPE_NAME, 1)],
    ageSortedItemIds := ["stale", "7"] }

theorem C8_collection_size_bounded_witness :
    (keysInAgeList c8DevColl ∧ keysInAgeList c8DiagColl ∧
        c8DevColl.coll.length ≤ MAX_DEVICES_COLLECTION_ITEMS ∧
        c8DiagColl.coll.length ≤ MAX_DIAG_COLLECTION_ITEMS) ∧
      ((DevicesCollection.addItem c8DevColl c8Dev).coll.length ≤ MAX_DEVICES_COLLECTION_ITEMS ∧
        (DiagnosticsCollection.addItem c8DiagColl c8Diag).coll.length ≤
          MAX_DIAG_COLLECTION_ITEMS ∧
        (c8DevColl.evictOldestItem DeviceItem.getTypeName).coll.length ≤
          MAX_DEVICES_COLLECTION_ITEMS ∧
        (c8DiagColl.evictOldestItem DiagItem.getTypeName).coll.length ≤
          MAX_DIAG_COLLECTION_ITEMS ∧
        c8DevColl.clear.coll.length ≤ MAX_DEVICES_COLLECTION_ITEMS ∧
        c8DiagColl.clear.coll.length ≤ MAX_DIAG_COLLECTION_ITEMS ∧
        (BasicCollection.getItem c8DevColl "zz" = mapFind c8DevColl.coll "zz" ∧
          c8DevColl.coll.length ≤ MAX_DEVICES_COLLECTION_ITEMS)) :=
  ⟨⟨by unfold keysInAgeList; decide, by unfold keysInAgeList; decide, by decide, by decide⟩,
    C8_collection_size_bounded c8DevColl c8DiagColl c8Dev c8Diag "zz"
      (by unfold keysInAgeList; decide) (by unfold keysInAgeList; decide)
      (by decide) (by decide)⟩

/-- C9 counterexample: build a one-item devices collection with
`addItem`, then `clear()` it.  The result still carries the type counter
and the FIFO entry, so it is distinguishable from a freshly constructed
(empty) collection. -/
theorem C9_counterexample :
    (DevicesCollection.addItem
          { coll := [], holdsTypes := [], ageSortedItemIds := [] } c8Dev).clear ≠
        ({ coll := [], holdsTypes := [], ageSortedItemIds := [] } : BasicCollection DeviceItem) ∧
      (DevicesCollection.addItem
          { coll := [], holdsTypes := [], ageSortedItemIds := [] } c8Dev).clear.holdsTypes =
        [(DEVICE_TYPE_NAME, 1)] ∧
      (DevicesCollection.addItem
          { coll := [], holdsTypes := [], ageSortedItemIds := [] } c8Dev).clear.ageSortedItemIds =
        ["aaaaaaaaaaaaaaaa"] := by
  decide

/-- C9 (amended): `clear()` removes all stored items (every lookup on the
cleared collection misses), but leaves the per-type counters and the
age-ordered eviction FIFO unchanged, so the cleared collection is not in
general indistinguishable from a freshly constructed one. -/
theorem C9_clear_drops_only_items (c : BasicCollection α) (k : String) :
    c.clear.coll = [] ∧
      BasicCollection.getItem c.clear k = none ∧
      c.clear.holdsTypes = c.holdsTypes ∧
      c.clear.ageSortedItemIds = c.ageSortedItemIds :=
  ⟨rfl, rfl, rfl, rfl⟩

def nmapFind (m : List (Nat × α)) (k : Nat) : Option α :=
  (m.find? (fun p => p.1 == k)).map (·.2)

/-- `m[k] = v` on an `unordered_map` keyed by rloc16 (iteration order of
the C++ container is unspecified; the model keeps insertion order). -/
def nmapInsert (m : List (Nat × α)) (k : Nat) (v : α) : List (Nat × α) :=
  match m with
  | [] => [(k, v)]
  | p :: ps => if p.1 == k then (k, v) :: ps else p :: nmapInsert ps k v

def nmapErase (m : List (Nat × α)) (k : Nat) : List (Nat × α) :=
  m.filter (fun p => !(p.1 == k))

/-- `DiagInfo` (network_diag_handler.hpp): arrival time plus the merged
TLV content of one rloc16. -/
structure DiagInfo where
  startTime : Nat
  content : List DiagTlv
deriving DecidableEq, Repr

/-- `RouterChildTable` (network_diag_handler.hpp). -/
structure RouterChildTable where
  updateTime : Nat
  state : RequestState
  childTable : List ChildEntry
deriving DecidableEq, Repr

/-- `RouterChildIp6Addrs` (network_diag_handler.hpp). -/
structure RouterChildIp6Addrs where
  updateTime : Nat
  state : RequestState
  children : List DeviceIp6Addrs
deriving DecidableEq, Repr

/-- `RouterNeighbors` (network_diag_handler.hpp); the neighbor entries
are opaque to the handler and modelled as tokens. -/
structure RouterNeighbors where
  updateTime : Nat
  state : RequestState
  neighbors : List Nat
deriving DecidableEq, Repr

/-- The mutable state of `NetworkDiagHandler` that the embedded functions
read and write, together with the two global collections it fills
(`gDevicesCollection`, `gDiagnosticsCollection`) and a counter standing
in for the random uuid generator. -/
structure CollectorState where
  requestState : RequestState
  diagQueryRequestState : RequestState
  relationshipType : String
  retries : Nat
  maxRetries : Nat
  diagSet : List (Nat × DiagInfo)
  childTables : List (Nat × RouterChildTable)
  childIps : List (Nat × RouterChildIp6Addrs)
  routerNeighbors : List (Nat × RouterNeighbors)
  devColl : BasicCollection DeviceItem
  diagColl : BasicCollection DiagItem
  uuidCounter : Nat
deriving Repr

/-- `NetworkDiagHandler::AddSingleRloc16LookUp`: for a router rloc16
(low 9 bits zero) prime the three query maps with empty entries. -/
def AddSingleRloc16LookUp (s : CollectorState) (rloc16 : Nat) : CollectorState :=
  if rloc16 % 512 == 0 then
    { s with
      childTables := nmapInsert s.childTables rloc16
        { updateTime := 0, state := .kIdle, childTable := [] }
      childIps := nmapInsert s.childIps rloc16
        { updateTime := 0, state := .kIdle, children := [] }
      routerNeighbors := nmapInsert s.routerNeighbors rloc16
        { updateTime := 0, state := .kIdle, neighbors := [] } }
  else s

/-- The nested merge loop of `NetworkDiagHandler::UpdateDiag`
(network_diag_handler.cpp, lines 784-830): walk the existing TLVs; when
the incoming set has a TLV of the same type push that one and erase it
from the incoming set, otherwise push the existing TLV.  Returns the
merged front plus the still-unconsumed incoming TLVs. -/
def updateDiagMergeLoop : List DiagTlv → List DiagTlv → List DiagTlv × List DiagTlv
  | [], rem => ([], rem)
  | e :: es, rem =>
      match rem.find? (fun n => n.typ == e.typ) with
      | some n =>
          let res := updateDiagMergeLoop es (rem.eraseP (fun n => n.typ == e.typ))
          (n :: res.1, res.2)
      | none =>
          let res := updateDiagMergeLoop es rem
          (e :: res.1, res.2)

/-- `NetworkDiagHandler::UpdateDiag`: merge a Diagnostic Get response
into `mDiagSet[key]`, resetting the start time; when the key is new,
also prime the query maps via `AddSingleRloc16LookUp`. -/
def UpdateDiag (nowTime : Nat) (s : CollectorState) (key : Nat) (aDiag : List DiagTlv) :
    CollectorState :=
  match nmapFind s.diagSet key with
  | some info =>
      let content :=
        if info.content.isEmpty then aDiag
        else
          (updateDiagMergeLoop info.content aDiag).1 ++ (updateDiagMergeLoop info.content aDiag).2
      { s with diagSet := nmapInsert s.diagSet key { startTime := nowTime, content := content } }
  | none =>
      let s' := AddSingleRloc16LookUp s key
      { s' with diagSet := nmapInsert s'.diagSet key { startTime := nowTime, content := aDiag } }

theorem nmapFind_insert (m : List (Nat × α)) (k : Nat) (v : α) :
    nmapFind (nmapInsert m k v) k = some v := by
  induction m with
  | nil => simp [nmapInsert, nmapFind]
  | cons p ps ih =>
      by_cases hp : (p.1 == k) = true
      · simp [nmapInsert, hp, nmapFind]
      · simp only [nmapInsert, if_neg hp]
        simp only [nmapFind, List.find?_cons, hp]
        exact ih

theorem find?_eraseP_ne (l : List DiagTlv) (t t' : Nat) (h : t' ≠ t) :
    (l.eraseP (fun n => n.typ == t)).find? (fun n => n.typ == t') =
      l.find? (fun n => n.typ == t') := by
  induction l with
  | nil => rfl
  | cons r rs ih =>
      by_cases hr : (r.typ == t) = true
      · have hrt : r.typ = t := by simpa using hr
        have hq : (r.typ == t') = false := by
          rw [beq_eq_false_iff_ne, hrt]
          exact fun hh => h hh.symm
        simp [List.eraseP_cons, hr, List.find?_cons, hq]
      · simp only [List.eraseP_cons, hr, cond_false]
        by_cases hq : (r.typ == t') = true
        · simp [List.find?_cons, hq]
        · simp [List.find?_cons, hq, ih]

theorem filter_eraseP_of_pairwise (l : List DiagTlv) (t : Nat) (q : DiagTlv → Bool)
    (hl : l.Pairwise (fun a b => a.typ ≠ b.typ)) :
    (l.eraseP (fun m => m.typ == t)).filter q =
      l.filter (fun m => !(t == m.typ) && q m) := by
  induction l with
  | nil => rfl
  | cons r rs ih =>
      rcases List.pairwise_cons.mp hl with ⟨hr, hrs⟩
      by_cases hrt : (r.typ == t) = true
      · have hrt' : r.typ = t := by simpa using hrt
        have hpred : (!(t == r.typ) && q r) = false := by simp [hrt']
        simp only [List.eraseP_cons, hrt, cond_true, List.filter_cons, hpred,
          Bool.false_eq_true, if_false]
        apply List.filter_congr
        intro m hm
        have hne : (t == m.typ) = false := by
          rw [beq_eq_false_iff_ne, ← hrt']
          exact hr m hm
        simp [hne]
      · have hrt' : (t == r.typ) = false := by
          rw [beq_eq_false_iff_ne]
          intro hh
          exact absurd (by simp [hh] : (r.typ == t) = true) hrt
        have hpred : (!(t == r.typ) && q r) = q r := by simp [hrt']
        simp only [List.eraseP_cons, hrt, cond_false, List.filter_cons, hpred]
        by_cases hqr : q r = true
        · simp [hqr, ih hrs]
        · simp [hqr, ih hrs]

theorem mergeLoop_spec (es : List DiagTlv) :
    ∀ rem : List DiagTlv, es.Pairwise (fun a b => a.typ ≠ b.typ) →
      rem.Pairwise (fun a b => a.typ ≠ b.typ) →
      updateDiagMergeLoop es rem =
        (es.map (fun e =>
            match rem.find? (fun n => n.typ == e.typ) with
            | some n => n
            | none => e),
          rem.filter (fun n => es.all (fun e => !(e.typ == n.typ)))) := by
  induction es with
  | nil =>
      intro rem _ _
      simp [updateDiagMergeLoop]
  | cons e es ih =>
      intro rem hes hrem
      rcases List.pairwise_cons.mp hes with ⟨he, hes'⟩
      unfold updateDiagMergeLoop
      cases hfind : rem.find? (fun n => n.typ == e.typ) with
      | none =>
          rw [ih rem hes' hrem]
          have hnone : ∀ n ∈ rem, (e.typ == n.typ) = false := by
            intro n hn
            have := List.find?_eq_none.mp hfind n hn
            rw [beq_eq_false_iff_ne]
            intro hh
            exact this (by simp [hh])
          simp only [List.map_cons, hfind]
          rw [Prod.mk.injEq]
          refine ⟨rfl, ?_⟩
          apply List.filter_congr
          intro n hn
          simp [hnone n hn]
      | some n =>
          have hrem' : (rem.eraseP (fun m => m.typ == e.typ)).Pairwise
              (fun a b => a.typ ≠ b.typ) :=
            hrem.sublist (List.eraseP_sublist rem)
          rw [ih (rem.eraseP (fun m => m.typ == e.typ)) hes' hrem']
          simp only [List.map_cons, hfind]
          rw [Prod.mk.injEq]
          refine ⟨?_, ?_⟩
          · rw [List.cons.injEq]
            refine ⟨rfl, ?_⟩
            apply List.map_congr_left
            intro e' he'
            rw [find?_eraseP_ne rem e.typ e'.typ (Ne.symm (he e' he'))]
          · rw [filter_eraseP_of_pairwise rem e.typ _ hrem]
            apply List.filter_congr
            intro m hm
            simp

/-- C3: merging a Diagnostic Get response into a `diag_set` entry with a
non-empty TLV list replaces each existing TLV whose type occurs in the
incoming set by the incoming TLV, retains each existing TLV whose type
does not occur, appends every incoming TLV whose type had no prior
entry, and resets the entry's start time to the current time (stated for
sets with at most one TLV per type, the invariant the handler maintains). -/
theorem C3_update_diag_merges (nowTime : Nat) (s : CollectorState) (key : Nat)
    (incoming : List DiagTlv) (info : DiagInfo)
    (hfound : nmapFind s.diagSet key = some info)
    (hne : info.content ≠ [])
    (hex : info.content.Pairwise (fun a b => a.typ ≠ b.typ))
    (hinc : incoming.Pairwise (fun a b => a.typ ≠ b.typ)) :
    nmapFind (UpdateDiag nowTime s key incoming).diagSet key =
      some { startTime := nowTime,
             content :=
               info.content.map (fun e =>
                 match incoming.find? (fun n => n.typ == e.typ) with
                 | some n => n
                 | none => e) ++
               incoming.filter (fun n => info.content.all (fun e => !(e.typ == n.typ))) } := by
  have hne' : info.content.isEmpty = false := by
    cases hc : info.content with
    | nil => exact absurd hc hne
    | cons a l => rfl
  simp only [UpdateDiag, hfound, hne', Bool.false_eq_true, if_false,
    mergeLoop_spec info.content incoming hex hinc]
  exact nmapFind_insert _ _ _

def c3Tlv (t v : Nat) : DiagTlv := { typ := t, data := TlvData.raw v }

def c3State : CollectorState :=
  { requestState := .kWaiting, diagQueryRequestState := .kWaiting,
    relationshipType := DIAG_COLLECTION_NAME, retries := 0, maxRetries := 3,
    diagSet := [(0x0800, { startTime := 3, content := [c3Tlv 1 10, c3Tlv 9 20] })],
    childTables := [], childIps := [], routerNeighbors := [],
    devColl := { coll := [], holdsTypes := [], ageSortedItemIds := [] },
    diagColl := { coll := [], holdsTypes := [], ageSortedItemIds := [] },
    uuidCounter := 0 }

theorem C3_update_diag_merges_witness :
    (nmapFind c3State.diagSet 0x0800 =
        some { startTime := 3, content := [c3Tlv 1 10, c3Tlv 9 20] }) ∧
      nmapFind (UpdateDiag 7 c3State 0x0800 [c3Tlv 9 99, c3Tlv 2 42]).diagSet 0x0800 =
        some { startTime := 7,
               content :=
                 [c3Tlv 1 10, c3Tlv 9 20].map (fun e =>
                   match [c3Tlv 9 99, c3Tlv 2 42].find? (fun n => n.typ == e.typ) with
                   | some n => n
                   | none => e) ++
                 [c3Tlv 9 99, c3Tlv 2 42].filter
                   (fun n => [c3Tlv 1 10, c3Tlv 9 20].all (fun e => !(e.typ == n.typ))) } :=
  ⟨by decide,
    C3_update_diag_merges 7 c3State 0x0800 [c3Tlv 9 99, c3Tlv 2 42]
      { startTime := 3, content := [c3Tlv 1 10, c3Tlv 9 20] }
      (by decide) (by decide) (by decide) (by decide)⟩

/-- The facts the handler obtains from the clock and the OpenThread
stack during one `continueHandleRequest` call, supplied as an
environment: time comparisons, send results, the streaming query
outcome, and the node-local data consulted while filling the
collections. -/
structure DiagEnv where
  deadlinePassed : Bool
  retryDelayPassed : Bool
  sendOk : Bool
  queriesDone : Bool
  nowSec : Int
  meshLocalPfx : List Nat
  thisExtAddr : List Nat
  nodeInfo : NodeInfo
  srpHosts : List (String × List (List Nat))
  haveRouteOrigin : Bool
  uninitDeviceInfo : DeviceInfo
deriving Repr

def zeros8 : List Nat := List.replicate 8 0

def zeros16 : List Nat := List.replicate 16 0

/-- `isOtExtAddrEmpty` (network_diag_handler.cpp). -/
def isOtExtAddrEmpty (a : List Nat) : Bool := a.all (· == 0)

/-- `isOtIp6AddrEmpty` (network_diag_handler.cpp). -/
def isOtIp6AddrEmpty (a : List Nat) : Bool := a.all (· == 0)

/-- `isDeviceComplete` (network_diag_handler.cpp): role set and
ML-EID-IID, EUI-64 and OMR address non-zero (hostname not required). -/
def isDeviceComplete (d : DeviceInfo) : Bool :=
  !(d.role == "") && !isOtExtAddrEmpty d.mlEidIid && !isOtExtAddrEmpty d.eui64 &&
    !isOtIp6AddrEmpty d.ip6Addr

/-- `filterIpv6` (network_diag_handler.cpp, lines 130-155), with the
`m16` word comparisons of the C code translated to the corresponding
byte comparisons: skip RLOC/ALOC addresses (IID prefix
`00 00 00 ff fe 00`); an address under the mesh-local prefix yields the
ML-EID-IID; any other address that is neither link-local `fe80` nor
multicast `ff00..ff0f` becomes the OMR address (last one wins). -/
def filterIpv6 (d : DeviceInfo) (addr : List Nat) (mlp : List Nat) : DeviceInfo :=
  if addr.getD 8 0 == 0 && addr.getD 9 0 == 0 && addr.getD 10 0 == 0 &&
      addr.getD 11 0 == 0xff && addr.getD 12 0 == 0xfe && addr.getD 13 0 == 0 then
    d
  else if addr.take 8 == mlp.take 8 then
    { d with mlEidIid := addr.drop 8 }
  else if !(addr.getD 0 0 == 0xfe && addr.getD 1 0 == 0x80) &&
      (addr.getD 0 0 * 256 + addr.getD 1 0 < 0xff00 ||
        addr.getD 0 0 * 256 + addr.getD 1 0 > 0xff0f) then
    { d with ip6Addr := addr }
  else d

def hexDigitChar (n : Nat) : Char :=
  if n < 10 then Char.ofNat ('0'.toNat + n) else Char.ofNat ('a'.toNat + (n - 10))

/-- `otbr::Utils::Bytes2Hex` followed by `StringUtils::ToLowercase`. -/
def bytesToHexLower (bs : List Nat) : String :=
  ((bs.map (fun b => [hexDigitChar (b / 16 % 16), hexDigitChar (b % 16)])).flatten).asString

/-- `NetworkDiagHandler::GetHostName`: scan the (non-deleted) SRP hosts;
whenever a host lists an address equal to the device's OMR address, take
that host's name up to the first dot.  The C loop does not break out of
the host iteration, so the last matching host wins. -/
def GetHostName (env : DiagEnv) (d : DeviceInfo) : DeviceInfo :=
  env.srpHosts.foldl
    (fun acc h =>
      if h.2.any (fun a => a == d.ip6Addr) then
        { acc with hostName := (h.1.toList.takeWhile (fun c => !(c == '.'))).asString }
      else acc)
    d

def mapReplaceValue (m : List (String × α)) (k : String) (v : α) : List (String × α) :=
  m.map (fun p => if p.1 == k then (k, v) else p)

/-- `NetworkDiagHandler::SetDeviceItemAttributes` (network_diag_handler.cpp,
lines 1169-1280): insert a new `ThreadDevice` (or `ThisThreadDevice` when
the extended address is the node's own), or update only the non-empty
fields of an existing item in place. -/
def SetDeviceItemAttributes (env : DiagEnv) (coll : BasicCollection DeviceItem)
    (extAddr : String) (d : DeviceInfo) : BasicCollection DeviceItem :=
  let thisStr := bytesToHexLower env.thisExtAddr
  match BasicCollection.getItem coll extAddr with
  | none =>
      let d := { d with needsUpdate := !isDeviceComplete d }
      if thisStr == extAddr then
        DevicesCollection.addItem coll
          { itemId := extAddr, deviceInfo := d, nodeInfo := some env.nodeInfo }
      else
        DevicesCollection.addItem coll { itemId := extAddr, deviceInfo := d, nodeInfo := none }
  | some item =>
      let di := item.deviceInfo
      let di := if !isOtExtAddrEmpty d.eui64 then { di with eui64 := d.eui64 } else di
      let di := if !isOtIp6AddrEmpty d.ip6Addr then { di with ip6Addr := d.ip6Addr } else di
      let di := if !isOtExtAddrEmpty d.mlEidIid then { di with mlEidIid := d.mlEidIid } else di
      let di := if 0 < d.hostName.length then { di with hostName := d.hostName } else di
      let di := if 0 < d.role.length then { di with role := d.role } else di
      let di :=
        if (d.modeRxOnWhenIdle != item.deviceInfo.modeRxOnWhenIdle) ||
            (d.modeDeviceType != item.deviceInfo.modeDeviceType) then
          { di with modeDeviceType := d.modeDeviceType,
                    modeRxOnWhenIdle := d.modeRxOnWhenIdle,
                    modeNetworkData := d.modeNetworkData }
        else di
      { coll with coll := mapReplaceValue coll.coll extAddr { item with deviceInfo := di } }

/-- `NetworkDiagHandler::GetChildren` (network_diag_handler.cpp,
lines 1282-1336): emit one child device per child-table entry of the
router, filtering the child's IPv6 list for ML-EID-IID/OMR and looking
up the SRP hostname. -/
def GetChildren (env : DiagEnv) (childTables : List (Nat × RouterChildTable))
    (childIps : List (Nat × RouterChildIp6Addrs)) (coll : BasicCollection DeviceItem)
    (parentRloc16 : Nat) : BasicCollection DeviceItem :=
  let childTable :=
    match nmapFind childTables parentRloc16 with
    | some t => t.childTable
    | none => []
  let ipLists :=
    match nmapFind childIps parentRloc16 with
    | some t => t.children
    | none => []
  childTable.foldl
    (fun acc item =>
      let d0 : DeviceInfo :=
        { extAddress := item.extAddress, mlEidIid := zeros8, eui64 := zeros8,
          ip6Addr := zeros16, hostName := "", role := "child",
          modeDeviceType := item.deviceTypeFtd, modeRxOnWhenIdle := item.rxOnWhenIdle,
          modeNetworkData := item.fullNetData, needsUpdate := true }
      let extAddr := bytesToHexLower item.extAddress
      let d :=
        match ipLists.find? (fun dev => dev.rloc16 == item.rloc16) with
        | some dev =>
            GetHostName env
              (dev.ip6Addrs.foldl (fun dd a => filterIpv6 dd a env.meshLocalPfx) d0)
        | none => d0
      if !(extAddr == "") then SetDeviceItemAttributes env acc extAddr d else acc)
    coll

/-- `NetworkDiagHandler::FillDeviceCollection` (network_diag_handler.cpp,
lines 1353-1431).  The `DeviceInfo` scratch variable is declared outside
the loop in the C code, so only the listed fields are reset per entry;
its initial (uninitialised) value is supplied by the environment. -/
def FillDeviceCollection (env : DiagEnv) (s : CollectorState) : BasicCollection DeviceItem :=
  (s.diagSet.foldl
    (fun (acc : DeviceInfo × BasicCollection DeviceItem) entry =>
      if entry.2.content.isEmpty then acc
      else
        let d0 := { acc.1 with mlEidIid := zeros8, eui64 := zeros8, ip6Addr := zeros16,
                               hostName := "", role := "", needsUpdate := true }
        let st := entry.2.content.foldl
          (fun (st : DeviceInfo × String × BasicCollection DeviceItem) tlv =>
            let (d, ext, c) := st
            if tlv.typ == 0 then
              match tlv.data with
              | .extAddressData b => ({ d with extAddress := b }, bytesToHexLower b, c)
              | _ => (d, ext, c)
            else if tlv.typ == 1 then
              match tlv.data with
              | .addr16 r =>
                  if 0 < r % 512 then ({ d with role := "child" }, ext, c)
                  else
                    ({ d with role := "router", modeDeviceType := true,
                              modeRxOnWhenIdle := true, modeNetworkData := true,
                              needsUpdate := false }, ext,
                      GetChildren env s.childTables s.childIps c r)
              | _ => (d, ext, c)
            else if tlv.typ == 23 then
              match tlv.data with
              | .eui64Data b => ({ d with eui64 := b }, ext, c)
              | _ => (d, ext, c)
            else if tlv.typ == 8 then
              match tlv.data with
              | .ip6List l =>
                  (GetHostName env (l.foldl (fun dd a => filterIpv6 dd a env.meshLocalPfx) d),
                    ext, c)
              | _ => (d, ext, c)
            else (d, ext, c))
          (d0, "", acc.2)
        if !(st.2.1 == "") then (st.1, SetDeviceItemAttributes env st.2.2 st.2.1 st.1)
        else (st.1, st.2.2))
    (env.uninitDeviceInfo, s.devColl)).2

/-- `NetworkDiagHandler::GetLocalCounters`: append the border-routing
counters extension TLV. -/
def GetLocalCounters (item : DiagItem) : DiagItem :=
  { item with deviceTlvSetExtension := item.deviceTlvSetExtension ++ [TlvExtension.brCounters] }

def nmapContains (m : List (Nat × α)) (k : Nat) : Bool :=
  m.any (fun p => p.1 == k)

/-- `NetworkDiagHandler::SetDiagQueryTlvs`: for a router rloc16 present
in the query maps, attach the collected child table, child IPv6 lists
and router neighbors to the diagnostic item. -/
def SetDiagQueryTlvs (s : CollectorState) (item : DiagItem) (parentRloc16 : Nat) : DiagItem :=
  if parentRloc16 % 512 == 0 && nmapContains s.childTables parentRloc16 then
    { item with
      children := (match nmapFind s.childTables parentRloc16 with
        | some t => t.childTable
        | none => [])
      childrenIp6Addrs := (match nmapFind s.childIps parentRloc16 with
        | some t => t.children
        | none => [])
      neighbors := (match nmapFind s.routerNeighbors parentRloc16 with
        | some t => t.neighbors
        | none => []) }
  else item

/-- `NetworkDiagHandler::SetServiceRoleFlags` (network_diag_handler.cpp,
lines 1530-1581): derive leader / primary-BBR / hosts-service flags from
the ALOC-form addresses in the Ip6AddrList TLV (byte translation of the
`m16` comparisons), and the border-router flag from whether the local
rloc16 occurs as a route origin in the network data. -/
def SetServiceRoleFlags (env : DiagEnv) (item : DiagItem) (tlv : DiagTlv) : DiagItem :=
  if !(tlv.typ == 8) then item
  else
    match tlv.data with
    | .ip6List l =>
        let flags := l.foldl
          (fun (f : Bool × Bool × Bool) addr =>
            if addr.getD 8 0 == 0 && addr.getD 9 0 == 0 && addr.getD 10 0 == 0 &&
                addr.getD 11 0 == 0xff && addr.getD 12 0 == 0xfe && addr.getD 13 0 == 0 then
              (f.1 || (addr.getD 14 0 == 0xfc && addr.getD 15 0 == 0x00),
                f.2.1 || (addr.getD 14 0 == 0xfc && addr.getD 15 0 == 0x38),
                f.2.2 || (0xfc10 ≤ addr.getD 14 0 * 256 + addr.getD 15 0 &&
                  addr.getD 14 0 * 256 + addr.getD 15 0 ≤ 0xfc2f))
            else f)
          (false, false, false)
        { item with deviceTlvSetExtension := item.deviceTlvSetExtension ++
            [TlvExtension.serviceRoleFlags flags.1 flags.2.1 flags.2.2 env.haveRouteOrigin] }
    | _ => item

/-- One `NetworkDiagnostics` item built by the TLV scan of
`FillDiagnosticCollection`: copy every TLV, adding the border-routing
counters when the ExtAddress is the node's own, the query-TLV vectors on
the ShortAddress TLV, and the service-role flags on the Ip6AddrList TLV. -/
def fillDiagnosticItem (env : DiagEnv) (s : CollectorState) (uuid : Nat)
    (content : List DiagTlv) : DiagItem :=
  content.foldl
    (fun item tlv =>
      let item :=
        if tlv.typ == 0 then
          match tlv.data with
          | .extAddressData b => if b == env.thisExtAddr then GetLocalCounters item else item
          | _ => item
        else if tlv.typ == 1 then
          match tlv.data with
          | .addr16 r => SetDiagQueryTlvs s item r
          | _ => item
        else if tlv.typ == 8 then SetServiceRoleFlags env item tlv
        else item
      { item with deviceTlvSet := item.deviceTlvSet ++ [tlv] })
    { uuid := uuid, deviceTlvSet := [], children := [], childrenIp6Addrs := [],
      neighbors := [], deviceTlvSetExtension := [] }

/-- `NetworkDiagHandler::FillDiagnosticCollection` (network_diag_handler.cpp,
lines 1433-1490): for every `diag_set` entry with a non-empty TLV list,
build a `NetworkDiagnostics` item, add it to the diagnostics collection,
and stamp the action's `relationship` with the collection name and the
new item's uuid (unconditionally — the task's status is not consulted).
Returns the new collection, the advanced uuid counter and the mutated
task. -/
def fillDiagStep (env : DiagEnv) (s : CollectorState)
    (acc : BasicCollection DiagItem × Nat × Option TaskNode) (entry : Nat × DiagInfo) :
    BasicCollection DiagItem × Nat × Option TaskNode :=
  if entry.2.content.isEmpty then acc
  else
    let item := fillDiagnosticItem env s acc.2.1 entry.2.content
    (DiagnosticsCollection.addItem acc.1 item, acc.2.1 + 1,
      acc.2.2.map (fun tn =>
        { tn with relationshipType := DIAG_COLLECTION_NAME,
                  relationshipId := toString item.uuid }))

def FillDiagnosticCollection (env : DiagEnv) (s : CollectorState) (task : Option TaskNode) :
    BasicCollection DiagItem × Nat × Option TaskNode :=
  s.diagSet.foldl (fillDiagStep env s) (s.diagColl, s.uuidCounter, task)

/-- The FTD-children (REED) scan at the start of the `kDone` branch of
`continueHandleRequest`: seed a placeholder `diag_set` entry for every
FTD child not yet present, resetting the retry counter; the returned
flag is the resulting value of `complete`. -/
def reedScan (s : CollectorState) : CollectorState × Bool :=
  s.childTables.foldl
    (fun acc parent =>
      parent.2.childTable.foldl
        (fun acc2 child =>
          if child.deviceTypeFtd && !(nmapContains acc2.1.diagSet child.rloc16) then
            ({ acc2.1 with
                diagSet := nmapInsert acc2.1.diagSet child.rloc16 { startTime := 0, content := [] },
                retries := 0 }, false)
          else acc2)
        acc)
    (s, true)

/-- The `exit:` block of `NetworkDiagHandler::continueHandleRequest`
(network_diag_handler.cpp, lines 444-494): on no error, mark the action
stopped on timeout and then completed when `complete` is (still) true;
when the cycle ends (complete or timeout) and a cycle was active, fill
the collection selected by the relationship kind and reset both request
states to Idle; finally translate timeout to `OTBR_ERROR_ABORTED` and a
pending result to `OTBR_ERROR_ERRNO`. -/
def contExit (env : DiagEnv) (s : CollectorState) (task : Option TaskNode)
    (err : OtbrError) (complete timeout : Bool) :
    CollectorState × Option TaskNode × OtbrError :=
  if err == .ok then
    let task := if timeout then task.map (fun t => { t with status := .stopped }) else task
    let task := if complete then task.map (fun t => { t with status := .completed }) else task
    let r :=
      if (complete || timeout) && !(s.requestState == .kIdle) then
        let r :=
          if s.relationshipType == DEVICE_COLLECTION_NAME then
            ({ s with devColl := FillDeviceCollection env s }, task)
          else if s.relationshipType == DIAG_COLLECTION_NAME then
            let f := FillDiagnosticCollection env s task
            ({ s with diagColl := f.1, uuidCounter := f.2.1 }, f.2.2)
          else (s, task)
        ({ r.1 with relationshipType := "", requestState := .kIdle, diagQueryRequestState := .kIdle }, r.2)
      else (s, task)
    (r.1, r.2, if timeout then .aborted else if !complete then .errno else .ok)
  else (s, task, err)

/-- The shared `kDone` body of `continueHandleRequest` (reached directly
or by fall-through from `kPending`): REED scan, retry/timeout checks,
re-sends to entries without a response, and the final completeness scan. -/
def contDone (env : DiagEnv) (s0 : CollectorState) (task : Option TaskNode) :
    CollectorState × Option TaskNode × OtbrError :=
  let r1 :=
    if s0.relationshipType == DEVICE_COLLECTION_NAME then reedScan s0 else (s0, true)
  let s1 := r1.1
  let c1 := r1.2
  let timeout := env.retryDelayPassed && s1.maxRetries ≤ s1.retries
  if env.retryDelayPassed then
    let s2 := { s1 with retries := s1.retries + 1 }
    let anyEmpty := s2.diagSet.any (fun e => e.2.content.isEmpty)
    if anyEmpty && !env.sendOk then (s2, task, .restErr)
    else contExit env s2 task .ok (c1 && !anyEmpty) timeout
  else
    let anyEmpty := s1.diagSet.any (fun e => e.2.content.isEmpty)
    contExit env s1 task .ok (c1 && !anyEmpty) timeout

/-- `NetworkDiagHandler::continueHandleRequest` (network_diag_handler.cpp,
lines 336-495).  `complete` starts true and `timeout` false; an expired
deadline jumps straight to the exit block with `timeout = true` (and
`complete` still true); otherwise the DiagQuery state machine advances:
`kWaiting` retries the unicast Diagnostic Get, `kPending` runs the
streaming queries and falls through to `kDone`, whose body is
`contDone`. -/
def continueHandleRequest (env : DiagEnv) (s : CollectorState) (task : Option TaskNode) :
    CollectorState × Option TaskNode × OtbrError :=
  if env.deadlinePassed then
    contExit env s task .ok true true
  else
    match s.diagQueryRequestState with
    | .kIdle => contExit env s task .ok true false
    | .kWaiting =>
        let timeout := env.retryDelayPassed && s.maxRetries ≤ s.retries
        if env.retryDelayPassed then
          let s' := { s with retries := s.retries + 1 }
          if !env.sendOk then (s', task, .restErr)
          else contExit env s' task .ok false timeout
        else contExit env s task .ok false timeout
    | .kPending =>
        if !env.queriesDone then contExit env s task .ok false false
        else contDone env { s with diagQueryRequestState := .kDone } task
    | .kDone => contDone env s task

/-- `evaluate_network_diagnostic_task` (rest_task_network_diagnostic.cpp,
lines 204-232): map the handler's error to the queue result — pending on
`ERRNO`/`INVALID_STATE`, stopped on `ABORTED`, success on no error,
failure otherwise. -/
def evaluateNetworkDiagnosticResult (e : OtbrError) : TaskResult :=
  match e with
  | .ok => .success
  | .errno => .resultPending
  | .invalidState => .resultPending
  | .aborted => .stopped
  | _ => .failure

/-- The status switch of `evaluate_task` (rest_task_queue.cpp,
lines 512-546). -/
def applyEvaluateResult (r : TaskResult) (t : TaskNode) : TaskNode :=
  match r with
  | .failure => { t with status := .failed }
  | .success => { t with status := .completed }
  | .stopped => { t with status := .stopped }
  | _ => t

/-- `evaluate_task` applied to a network-diagnostic action: guard on
active status, run the handler via `continueHandleRequest`, then apply
the result to the task's status and record the evaluation time. -/
def evaluateTask (env : DiagEnv) (s : CollectorState) (t : TaskNode) :
    CollectorState × TaskNode :=
  if t.status == .active then
    let r := continueHandleRequest env s (some t)
    let t' := match r.2.1 with
      | some tn => tn
      | none => t
    (r.1, { applyEvaluateResult (evaluateNetworkDiagnosticResult r.2.2) t' with
            lastEvaluated := env.nowSec })
  else (s, t)

/-- The relationship-rendering condition of `task_node_to_json`
(rest_task_handler.cpp, lines 2079-2108): the `relationships` object is
emitted only when the status is completed and a relationship type has
been stamped. -/
def taskNodeJsonHasRelationship (t : TaskNode) : Bool :=
  t.status == .completed && 0 < t.relationshipType.length

theorem contExit_deadline_eq (env : DiagEnv) (s : CollectorState) (t : TaskNode)
    (hbusyb : (s.requestState == RequestState.kIdle) = false) :
    contExit env s (some t) .ok true true =
      (let task2 : Option TaskNode := some { t with status := TaskStatus.completed }
       let r :=
         if s.relationshipType == DEVICE_COLLECTION_NAME then
           ({ s with devColl := FillDeviceCollection env s }, task2)
         else if s.relationshipType == DIAG_COLLECTION_NAME then
           let f := FillDiagnosticCollection env s task2
           ({ s with diagColl := f.1, uuidCounter := f.2.1 }, f.2.2)
         else (s, task2)
       (({ r.1 with relationshipType := "", requestState := RequestState.kIdle, diagQueryRequestState := RequestState.kIdle }), r.2, OtbrError.aborted)) := by
  unfold contExit
  simp [hbusyb]

theorem fillFold_task (env : DiagEnv) (s : CollectorState) (l : List (Nat × DiagInfo)) :
    ∀ (coll : BasicCollection DiagItem) (cnt : Nat) (t : TaskNode),
      ∃ t', (l.foldl (fillDiagStep env s) (coll, cnt, some t)).2.2 = some t' ∧
        t'.status = t.status ∧
        ((∃ e ∈ l, e.2.content.isEmpty = false) →
          t'.relationshipType = DIAG_COLLECTION_NAME) ∧
        ((∀ e ∈ l, e.2.content.isEmpty = true) → t' = t) := by
  induction l with
  | nil =>
      intro coll cnt t
      exact ⟨t, rfl, rfl, by rintro ⟨e, he, _⟩; exact absurd he (List.not_mem_nil e),
        fun _ => rfl⟩
  | cons e es ih =>
      intro coll cnt t
      by_cases hemp : e.2.content.isEmpty = true
      · have hstep : fillDiagStep env s (coll, cnt, some t) e = (coll, cnt, some t) := by
          unfold fillDiagStep
          rw [if_pos hemp]
        rw [List.foldl_cons, hstep]
        obtain ⟨t', h1, h2, h3, h4⟩ := ih coll cnt t
        refine ⟨t', h1, h2, ?_, ?_⟩
        · rintro ⟨e', he', hne'⟩
          rcases List.mem_cons.mp he' with rfl | he''
          · exact absurd hemp (by rw [hne']; decide)
          · exact h3 ⟨e', he'', hne'⟩
        · intro hall
          exact h4 fun e' he' => hall e' (List.mem_cons_of_mem e he')
      · have hemp' : e.2.content.isEmpty = false := by
          cases hc : e.2.content.isEmpty
          · rfl
          · exact absurd hc hemp
        have hstep : fillDiagStep env s (coll, cnt, some t) e =
            (DiagnosticsCollection.addItem coll (fillDiagnosticItem env s cnt e.2.content),
              cnt + 1,
              some { t with relationshipType := DIAG_COLLECTION_NAME,
                            relationshipId :=
                              toString (fillDiagnosticItem env s cnt e.2.content).uuid }) := by
          unfold fillDiagStep
          rw [if_neg (by rw [hemp']; exact Bool.false_ne_true)]
          rfl
        rw [List.foldl_cons, hstep]
        obtain ⟨t', h1, h2, h3, h4⟩ :=
          ih (DiagnosticsCollection.addItem coll (fillDiagnosticItem env s cnt e.2.content))
            (cnt + 1)
            { t with relationshipType := DIAG_COLLECTION_NAME,
                     relationshipId := toString (fillDiagnosticItem env s cnt e.2.content).uuid }
        refine ⟨t', h1, h2, ?_, ?_⟩
        · intro _
          by_cases hes : ∃ e' ∈ es, e'.2.content.isEmpty = false
          · exact h3 hes
          · have hall : ∀ e' ∈ es, e'.2.content.isEmpty = true := by
              intro e' he'
              by_contra hc
              exact hes ⟨e', he', by
                cases hcc : e'.2.content.isEmpty
                · rfl
                · exact absurd hcc hc⟩
            rw [h4 hall]
        · intro hall
          exact absurd (hall e (List.mem_cons_self e es)) (by rw [hemp']; exact Bool.false_ne_true)

/-- C1: when the collection deadline has elapsed and a cycle is active,
one queue evaluation of the action finalises the cycle with timeout: the
action's status ends up `stopped` (inside `continueHandleRequest` it is
briefly overwritten to `completed`, but the returned `OTBR_ERROR_ABORTED`
makes `evaluate_task` set it back to `stopped`); the partial results are
still written to the devices or diagnostics collection according to the
relationship kind; and both collector request states return to Idle. -/
theorem C1_timeout_finalises (env : DiagEnv) (s : CollectorState) (t : TaskNode)
    (hdl : env.deadlinePassed = true) (hact : t.status = .active)
    (hbusy : s.requestState ≠ .kIdle) :
    (evaluateTask env s t).2.status = .stopped ∧
      (evaluateTask env s t).1.requestState = .kIdle ∧
      (evaluateTask env s t).1.diagQueryRequestState = .kIdle ∧
      (s.relationshipType = DEVICE_COLLECTION_NAME →
        (evaluateTask env s t).1.devColl = FillDeviceCollection env s) ∧
      (s.relationshipType = DIAG_COLLECTION_NAME →
        (evaluateTask env s t).1.diagColl =
          (FillDiagnosticCollection env s (some { t with status := .completed })).1) := by
  have hactb : (t.status == TaskStatus.active) = true := by simp [hact]
  have hbusyb : (s.requestState == RequestState.kIdle) = false := by
    rw [beq_eq_false_iff_ne]
    exact hbusy
  have hred : evaluateTask env s t =
      (let r := contExit env s (some t) .ok true true
       (r.1, { applyEvaluateResult (evaluateNetworkDiagnosticResult r.2.2)
                 (match r.2.1 with
                  | some tn => tn
                  | none => t) with lastEvaluated := env.nowSec })) := by
    unfold evaluateTask continueHandleRequest
    rw [if_pos hactb, if_pos hdl]
  rw [hred, contExit_deadline_eq env s t hbusyb]
  by_cases hdev : s.relationshipType = DEVICE_COLLECTION_NAME
  · have hdevb : (s.relationshipType == DEVICE_COLLECTION_NAME) = true := by simp [hdev]
    have hdiagn : s.relationshipType ≠ DIAG_COLLECTION_NAME := by
      rw [hdev]
      decide
    refine ⟨?_, ?_, ?_, fun _ => ?_, fun hc => absurd hc hdiagn⟩ <;>
      simp [hdevb, applyEvaluateResult, evaluateNetworkDiagnosticResult]
  · have hdevb : (s.relationshipType == DEVICE_COLLECTION_NAME) = false := by
      rw [beq_eq_false_iff_ne]
      exact hdev
    by_cases hdiag : s.relationshipType = DIAG_COLLECTION_NAME
    · have hdiagb : (s.relationshipType == DIAG_COLLECTION_NAME) = true := by simp [hdiag]
      refine ⟨?_, ?_, ?_, fun hc => absurd hc hdev, fun _ => ?_⟩ <;>
        simp [hdevb, hdiagb, FillDiagnosticCollection, applyEvaluateResult,
          evaluateNetworkDiagnosticResult]
    · have hdiagb : (s.relationshipType == DIAG_COLLECTION_NAME) = false := by
        rw [beq_eq_false_iff_ne]
        exact hdiag
      refine ⟨?_, ?_, ?_, fun hc => absurd hc hdev, fun hc => absurd hc hdiag⟩ <;>
        simp [hdevb, hdiagb, applyEvaluateResult, evaluateNetworkDiagnosticResult]

def c1Env : DiagEnv :=
  { deadlinePassed := true, retryDelayPassed := false, sendOk := true, queriesDone := false,
    nowSec := 100, meshLocalPfx := [0xfd, 0, 0, 0, 0, 0, 0, 0],
    thisExtAddr := List.replicate 8 0x11,
    nodeInfo := { role := "leader", networkName := "net", rloc16 := 0x0800, numOfRouter := 1 },
    srpHosts := [], haveRouteOrigin := false,
    uninitDeviceInfo :=
      { extAddress := zeros8, mlEidIid := zeros8, eui64 := zeros8, ip6Addr := zeros16,
        hostName := "", role := "", modeDeviceType := false, modeRxOnWhenIdle := false,
        modeNetworkData := false, needsUpdate := true } }

def c1State : CollectorState :=
  { requestState := .kWaiting, diagQueryRequestState := .kWaiting,
    relationshipType := DIAG_COLLECTION_NAME, retries := 0, maxRetries := 1,
    diagSet := [(0x0800, { startTime := 0, content := [{ typ := 1, data := .addr16 0x0800 }] })],
    childTables := [], childIps := [], routerNeighbors := [],
    devColl := { coll := [], holdsTypes := [], ageSortedItemIds := [] },
    diagColl := { coll := [], holdsTypes := [], ageSortedItemIds := [] },
    uuidCounter := 0 }

def c1Task : TaskNode :=
  { status := .active, created := 0, timeout := 60, lastEvaluated := 0, deleteTask := false,
    relationshipType := "", relationshipId := "" }

theorem C1_timeout_finalises_witness :
    c1Env.deadlinePassed = true ∧ c1Task.status = .active ∧ c1State.requestState ≠ .kIdle ∧
      ((evaluateTask c1Env c1State c1Task).2.status = .stopped ∧
        (evaluateTask c1Env c1State c1Task).1.requestState = .kIdle ∧
        (evaluateTask c1Env c1State c1Task).1.diagQueryRequestState = .kIdle ∧
        (c1State.relationshipType = DEVICE_COLLECTION_NAME →
          (evaluateTask c1Env c1State c1Task).1.devColl = FillDeviceCollection c1Env c1State) ∧
        (c1State.relationshipType = DIAG_COLLECTION_NAME →
          (evaluateTask c1Env c1State c1Task).1.diagColl =
            (FillDiagnosticCollection c1Env c1State
                (some { c1Task with status := .completed })).1)) :=
  ⟨rfl, rfl, by decide, C1_timeout_finalises c1Env c1State c1Task rfl rfl (by decide)⟩

def c4Env : DiagEnv := c1Env

def c4Task : TaskNode :=
  { status := .active, created := 0, timeout := 60, lastEvaluated := 0, deleteTask := false,
    relationshipType := "", relationshipId := "" }

def c4State : CollectorState :=
  { requestState := .kWaiting, diagQueryRequestState := .kWaiting,
    relationshipType := DIAG_COLLECTION_NAME, retries := 1, maxRetries := 1,
    diagSet := [(0x0800, { startTime := 0, content := [{ typ := 1, data := .addr16 0x0800 }] })],
    childTables := [], childIps := [], routerNeighbors := [],
    devColl := { coll := [], holdsTypes := [], ageSortedItemIds := [] },
    diagColl := { coll := [], holdsTypes := [], ageSortedItemIds := [] },
    uuidCounter := 0 }

/-- C4 counterexample: a unicast diagnostics cycle whose deadline elapsed
with one partial response.  The queue evaluation leaves the action with
final status `stopped`, yet its relationship field has been stamped by
`FillDiagnosticCollection` with the diagnostics collection and the new
item's uuid — contradicting the claim that only completed actions ever
have their relationship set. -/
theorem C4_counterexample :
    (evaluateTask c4Env c4State c4Task).2.status = TaskStatus.stopped ∧
      (evaluateTask c4Env c4State c4Task).2.relationshipType = DIAG_COLLECTION_NAME ∧
      (evaluateTask c4Env c4State c4Task).2.relationshipId = "0" := by
  decide

/-- C4 (amended): `FillDiagnosticCollection` stamps the action's
relationship field for every diagnostic item it emits without consulting
the status, so a cycle that finalises on timeout with partial results
leaves a `stopped` action carrying a relationship; only the JSON
rendering of `task_node_to_json` hides the relationship unless the
status is `completed`. -/
theorem C4_relationship_stamped_on_timeout (env : DiagEnv) (s : CollectorState) (t : TaskNode)
    (hdl : env.deadlinePassed = true) (hact : t.status = .active)
    (hbusy : s.requestState ≠ .kIdle)
    (hkind : s.relationshipType = DIAG_COLLECTION_NAME)
    (hne : ∃ e ∈ s.diagSet, e.2.content.isEmpty = false) :
    (evaluateTask env s t).2.status = .stopped ∧
      (evaluateTask env s t).2.relationshipType = DIAG_COLLECTION_NAME ∧
      taskNodeJsonHasRelationship (evaluateTask env s t).2 = false := by
  have hactb : (t.status == TaskStatus.active) = true := by simp [hact]
  have hbusyb : (s.requestState == RequestState.kIdle) = false := by
    rw [beq_eq_false_iff_ne]
    exact hbusy
  have hdevb : (s.relationshipType == DEVICE_COLLECTION_NAME) = false := by
    rw [beq_eq_false_iff_ne, hkind]
    decide
  have hdiagb : (s.relationshipType == DIAG_COLLECTION_NAME) = true := by simp [hkind]
  have hred : evaluateTask env s t =
      (let r := contExit env s (some t) .ok true true
       (r.1, { applyEvaluateResult (evaluateNetworkDiagnosticResult r.2.2)
                 (match r.2.1 with
                  | some tn => tn
                  | none => t) with lastEvaluated := env.nowSec })) := by
    unfold evaluateTask continueHandleRequest
    rw [if_pos hactb, if_pos hdl]
  rw [hred, contExit_deadline_eq env s t hbusyb]
  obtain ⟨t', h1, hstat, h3, h4⟩ :=
    fillFold_task env s s.diagSet s.diagColl s.uuidCounter
      { t with status := TaskStatus.completed }
  have hrel := h3 hne
  simp only [hdevb, Bool.false_eq_true, if_false, hdiagb, if_true, FillDiagnosticCollection]
  rw [h1]
  refine ⟨?_, ?_, ?_⟩
  · simp [applyEvaluateResult, evaluateNetworkDiagnosticResult]
  · simp [applyEvaluateResult, evaluateNetworkDiagnosticResult, hrel]
  · simp [taskNodeJsonHasRelationship, applyEvaluateResult, evaluateNetworkDiagnosticResult]

theorem C4_relationship_stamped_on_timeout_witness :
    c4Env.deadlinePassed = true ∧ c4Task.status = .active ∧ c4State.requestState ≠ .kIdle ∧
      c4State.relationshipType = DIAG_COLLECTION_NAME ∧
      (∃ e ∈ c4State.diagSet, e.2.content.isEmpty = false) ∧
      ((evaluateTask c4Env c4State c4Task).2.status = .stopped ∧
        (evaluateTask c4Env c4State c4Task).2.relationshipType = DIAG_COLLECTION_NAME ∧
        taskNodeJsonHasRelationship (evaluateTask c4Env c4State c4Task).2 = false) :=
  ⟨rfl, rfl, by decide, rfl, by decide,
    C4_relationship_stamped_on_timeout c4Env c4State c4Task rfl rfl (by decide) rfl (by decide)⟩

end Otbr
